import Mathlib

/-!
Verification of the svelte-firekit wrapper library.

The repository wraps the Firebase client SDK in reactive Svelte classes.
We shallowly embed the wrapper-side logic: JavaScript objects become
association lists of string-keyed values (with the last binding of a key
winning, as for object spreads), vendor SDK calls become explicit outcome
parameters (either a delivered value or a thrown error), and each wrapper
class becomes a state structure with pure transition functions translated
from the callback bodies in the source.
-/

namespace Firekit

/-- A primitive JavaScript value appearing as a document field: strings,
integers, the `serverTimestamp()` sentinel, and `null`. -/
inductive JsVal where
  | str (s : String)
  | num (n : Int)
  | serverTimestamp
  | null
  deriving DecidableEq, Repr

/-- A JavaScript object: an ordered list of key/value bindings. Object
spread `\x7b...a, ...b\x7d` is modelled by list append `a ++ b`: a later
binding of a key shadows an earlier one. -/
abbrev JsObj : Type := List (String × JsVal)

/-- Property lookup on a JavaScript object: the value of the last binding
of key `k`, or `none` when the key is absent. -/
def oget (o : JsObj) (k : String) : Option JsVal :=
  (o.reverse.find? (fun p => p.1 == k)).map (fun p => p.2)

/-- Whether the object has a binding for key `k`. -/
def hasKey (o : JsObj) (k : String) : Bool :=
  o.any (fun p => p.1 == k)

theorem oget_nil (k : String) : oget ([] : JsObj) k = none := rfl

theorem hasKey_append (a b : JsObj) (k : String) :
    hasKey (a ++ b) k = (hasKey a k || hasKey b k) := by
  unfold hasKey
  rw [List.any_append]

theorem oget_append (a b : JsObj) (k : String) :
    oget (a ++ b) k = if hasKey b k then oget b k else oget a k := by
  unfold oget
  rw [List.reverse_append, List.find?_append]
  by_cases h : hasKey b k
  · have hex : ∃ p ∈ b.reverse, (fun p : String × JsVal => p.1 == k) p = true := by
      obtain ⟨p, hp, hpk⟩ := List.any_eq_true.mp h
      exact ⟨p, List.mem_reverse.mpr hp, hpk⟩
    have hsome : (b.reverse.find? (fun p : String × JsVal => p.1 == k)).isSome :=
      List.find?_isSome.mpr hex
    obtain ⟨q, hq⟩ := Option.isSome_iff_exists.mp hsome
    simp [h, hq, Option.or]
  · have hnone : b.reverse.find? (fun p : String × JsVal => p.1 == k) = none := by
      rw [List.find?_eq_none]
      intro p hp
      intro hpk
      exact h (List.any_eq_true.mpr ⟨p, List.mem_reverse.mp hp, hpk⟩)
    simp [h, oget, hnone, Option.or]

theorem oget_eq_none_of_not_hasKey (o : JsObj) (k : String)
    (h : hasKey o k = false) : oget o k = none := by
  have h2 : ∀ p ∈ o, ¬((fun p : String × JsVal => p.1 == k) p = true) :=
    List.any_eq_false.mp h
  have hnone : o.reverse.find? (fun p : String × JsVal => p.1 == k) = none := by
    rw [List.find?_eq_none]
    intro p hp hpk
    exact h2 p (List.mem_reverse.mp hp) hpk
  simp [oget, hnone]

/-! ## Document mutations (`FirekitDocumentMutations`, src/unnamed/part_004)

Vendor SDK calls are abstracted into an `Outcome` parameter: the combined
result of the awaited Firestore calls inside the method's `try` block, which
either delivers a value or throws a `JsError`. -/

/-- A thrown JavaScript error as observed by `handleError`: its optional
`code` and `message` properties. -/
structure JsError where
  code : Option String
  message : Option String
  deriving DecidableEq, Repr

/-- JavaScript `x || d` on an optional string property: the default wins
when the property is absent or the empty string (falsy). -/
def orFalsy (s : Option String) (d : String) : String :=
  match s with
  | some v => if v = "" then d else v
  | none => d

/-- The `error` component of a failed `MutationResponse`. -/
structure MutationError where
  code : String
  message : String
  deriving DecidableEq, Repr

/-- The response shape every mutation method resolves with. -/
structure MutationResponse where
  success : Bool
  id : Option String := none
  data : Option JsObj := none
  error : Option MutationError := none
  deriving DecidableEq, Repr

/-- Result of the vendor SDK calls inside a method's `try` block: either a
delivered value or a thrown error. -/
inductive Outcome (α : Type) where
  | ok (v : α)
  | thrown (e : JsError)
  deriving DecidableEq, Repr

/-- Semantics of `try`/`catch` around a body that may throw: a thrown error is mapped
through the handler to a normally-returned response. -/
def tryCatch {α : Type} (body : Except JsError α) (handler : JsError → α) :
    Except JsError α :=
  match body with
  | .ok v => .ok v
  | .error e => .ok (handler e)

namespace FirekitDocumentMutations

/-- Embedding of `getTimestampData(isNew)`: `updatedAt`/`updatedBy` always, plus
`createdAt`/`createdBy` when `isNew` (the default). `uid` is
`firekitUser.uid`. -/
def getTimestampData (isNew : Bool) (uid : JsVal) : JsObj :=
  let timestamps : JsObj := [("updatedAt", .serverTimestamp), ("updatedBy", uid)]
  if isNew then
    timestamps ++ [("createdAt", .serverTimestamp), ("createdBy", uid)]
  else
    timestamps

/-- Embedding of `handleError(error)`: formats a caught error into a failure response;
missing or falsy code/message fall back to fixed strings. -/
def handleError (e : JsError) : MutationResponse :=
  { success := false,
    error := some { code := orFalsy e.code "unknown_error",
                    message := orFalsy e.message "An unknown error occurred" } }

/-- The document object finally stored by `add`: the caller's data spread
first, then (when `options.timestamps`) the new-document timestamp fields,
then `id: docRef.id`. -/
def addPayload (data : JsObj) (timestamps : Bool) (uid : JsVal) (docId : String) :
    JsObj :=
  (data ++ (if timestamps then getTimestampData true uid else [])) ++
    [("id", .str docId)]

/-- Embedding of `add(collectionPath, data, options)`, with the document id produced by
the vendor (`addDoc`/`doc(colRef, customId)`) as the outcome value. -/
def add (data : JsObj) (timestamps : Bool) (uid : JsVal)
    (outcome : Outcome String) : Except JsError MutationResponse :=
  tryCatch
    (match outcome with
     | .thrown e => .error e
     | .ok docId =>
         .ok { success := true,
               id := some docId,
               data := some (addPayload data timestamps uid docId ++
                             [("id", .str docId)]) })
    handleError

/-- The object passed to `setDoc` by `set`: the caller's data, then (when
`options.timestamps`) `getTimestampData()` — with its `isNew` default of
`true`, so `createdAt`/`createdBy` are included — then `id: docRef.id`. -/
def setPayload (data : JsObj) (timestamps : Bool) (uid : JsVal) (docId : String) :
    JsObj :=
  (data ++ (if timestamps then getTimestampData true uid else [])) ++
    [("id", .str docId)]

/-- Embedding of `set(path, data, options)`; `docId` is the id of the reference derived
from `path`, and the outcome is the `setDoc` call. -/
def set (data : JsObj) (timestamps : Bool) (uid : JsVal) (docId : String)
    (outcome : Outcome Unit) : Except JsError MutationResponse :=
  tryCatch
    (match outcome with
     | .thrown e => .error e
     | .ok _ =>
         .ok { success := true,
               id := some docId,
               data := some (setPayload data timestamps uid docId) })
    handleError

/-- The object passed to `updateDoc` by `update`: the caller's data, then
(when `options.timestamps`) `getTimestampData(false)`. No `id` field is
added. -/
def updatePayload (data : JsObj) (timestamps : Bool) (uid : JsVal) : JsObj :=
  data ++ (if timestamps then getTimestampData false uid else [])

/-- Embedding of `update(path, data, options)`; `docId` is the id of the reference
derived from `path`, and the outcome is the `updateDoc` call. -/
def update (data : JsObj) (timestamps : Bool) (uid : JsVal) (docId : String)
    (outcome : Outcome Unit) : Except JsError MutationResponse :=
  tryCatch
    (match outcome with
     | .thrown e => .error e
     | .ok _ =>
         .ok { success := true,
               id := some docId,
               data := some (updatePayload data timestamps uid) })
    handleError

/-- Embedding of `delete(path)`; `docId` is the id of the reference derived from `path`,
and the outcome is the `deleteDoc` call. -/
def delete (docId : String) (outcome : Outcome Unit) :
    Except JsError MutationResponse :=
  tryCatch
    (match outcome with
     | .thrown e => .error e
     | .ok _ => .ok { success := true, id := some docId })
    handleError

/-- A fetched document snapshot: its id and, when the document exists, its
data (`exists()` is `true` exactly when `data()` is present). -/
structure DocSnap where
  id : String
  data : Option JsObj
  deriving DecidableEq, Repr

/-- Embedding of `getDoc(path)`: a successfully fetched but non-existent snapshot yields
a `not_found` failure; an existing one yields success with the data spread
after `id: docSnap.id`. -/
def getDocM (outcome : Outcome DocSnap) : Except JsError MutationResponse :=
  tryCatch
    (match outcome with
     | .thrown e => .error e
     | .ok snap =>
         match snap.data with
         | none =>
             .ok { success := false,
                   error := some { code := "not_found",
                                   message := "Document does not exist" } }
         | some d =>
             .ok { success := true,
                   id := some snap.id,
                   data := some ([("id", .str snap.id)] ++ d) })
    handleError

/-- Embedding of `exists(path)`: resolves with `docSnap.exists()`, and with `false`
when the vendor lookup throws — the error is only logged, never
propagated. -/
def existsM (outcome : Outcome Bool) : Bool :=
  match outcome with
  | .ok b => b
  | .thrown _ => false

end FirekitDocumentMutations

/-! ## `FirekitDoc` (src/dist/firestore/doc.svelte.js) -/

namespace FirekitDoc

/-- The reactive fields of a `FirekitDoc` instance. -/
structure State where
  _data : Option JsObj
  _loading : Bool
  _error : Option JsError
  deriving DecidableEq, Repr

/-- The `onSnapshot` next callback: a delivered snapshot (an id plus the
document data when the document exists, as in
`FirekitDocumentMutations.DocSnap`) is mirrored into the fields; the data,
when present, is spread with `id: snapshot.id` last. -/
def onSnapshotNext (snap : FirekitDocumentMutations.DocSnap) (s : State) : State :=
  { s with
    _data := match snap.data with
             | some d => some (d ++ [("id", .str snap.id)])
             | none => none,
    _loading := false,
    _error := none }

/-- The `onSnapshot` error callback. -/
def onSnapshotError (e : JsError) (s : State) : State :=
  { s with _error := some e, _loading := false }

/-- The `data` getter. -/
def dataGetter (s : State) : Option JsObj := s._data

/-- The `loading` getter. -/
def loadingGetter (s : State) : Bool := s._loading

/-- The `error` getter. -/
def errorGetter (s : State) : Option JsError := s._error

/-- The `exists` getter: `this._data !== null`. -/
def existsGetter (s : State) : Bool := s._data.isSome

end FirekitDoc

/-! ## `FirekitCollectionGroup` (src/unnamed/part_003) -/

namespace FirekitCollectionGroup

/-- One document of a delivered query snapshot: its id, its reference path
and its data. -/
structure SnapDoc where
  id : String
  path : String
  data : JsObj
  deriving DecidableEq, Repr

/-- The reactive fields of a `FirekitCollectionGroup` instance. -/
structure State where
  _data : List JsObj
  _loading : Bool
  _error : Option JsError
  deriving DecidableEq, Repr

/-- The mapping applied to each snapshot document:
`(\x7b id: doc.id, path: doc.ref.path, ...doc.data() \x7d)` — the document's
own fields are spread last. -/
def mapDoc (d : SnapDoc) : JsObj :=
  ([("id", .str d.id), ("path", .str d.path)] : JsObj) ++ d.data

/-- The `onSnapshot` next callback: maps the snapshot's documents and
clears loading and error. -/
def onSnapshotNext (docs : List SnapDoc) (s : State) : State :=
  { s with _data := docs.map mapDoc, _loading := false, _error := none }

/-- The `onSnapshot` error callback. -/
def onSnapshotError (e : JsError) (s : State) : State :=
  { s with _error := some e, _loading := false }

/-- The `data` getter. -/
def dataGetter (s : State) : List JsObj := s._data

/-- The `loading` getter. -/
def loadingGetter (s : State) : Bool := s._loading

/-- The `error` getter. -/
def errorGetter (s : State) : Option JsError := s._error

/-- The `empty` getter: `this._data.length === 0`. -/
def emptyGetter (s : State) : Bool := s._data.length == 0

/-- The `size` getter: `this._data.length`. -/
def sizeGetter (s : State) : Nat := s._data.length

end FirekitCollectionGroup

/-! ## `FirekitRealtimeDB` (src/dist/realtime/realtime.svelte.js) -/

namespace FirekitRealtimeDB

/-- A Realtime Database value as delivered by `snapshot.val()`: a
primitive or `null` for a missing node. The claims only compare values,
so the primitive value type suffices. -/
abbrev RTVal := Option JsVal

/-- The fields of a `FirekitRealtimeDB` instance relevant to its
subscription lifecycle; `unsubscribe` records whether a vendor unsubscribe
function is stored (the constructor's `onValue` sets one). -/
structure State where
  _data : RTVal
  _loading : Bool
  _error : Option JsError
  unsubscribe : Bool
  deriving DecidableEq, Repr

/-- The `onValue` next callback: `this._data = snapshot.val()` and
loading/error cleared. -/
def onValueNext (v : RTVal) (s : State) : State :=
  { s with _data := v, _loading := false, _error := none }

/-- The `onValue` error callback (inside `initializeRealtimeDB`). -/
def onValueError (e : JsError) (s : State) : State :=
  { s with _error := some e, _loading := false }

/-- The `data` getter. -/
def dataGetter (s : State) : RTVal := s._data

/-- The `loading` getter. -/
def loadingGetter (s : State) : Bool := s._loading

/-- The `error` getter. -/
def errorGetter (s : State) : Option JsError := s._error

/-- Embedding of `dispose()`: calls the stored unsubscribe function when one exists and
assigns no field. The returned flag records whether the vendor unsubscribe
function was invoked. -/
def dispose (s : State) : State × Bool :=
  (s, s.unsubscribe)

end FirekitRealtimeDB

/-! ## `PresenceService` (src/dist/auth/presence.svelte.js)

Timestamps produced by `new Date(...).toISOString()` are modelled as
naturals: lexicographic comparison of same-era ISO-8601 strings agrees
with the numeric order of the instants they denote. -/

namespace PresenceService

/-- A geolocation reading attached to a session. -/
structure GeoLocation where
  latitude : Int
  longitude : Int
  lastUpdated : Nat
  deriving DecidableEq, Repr

/-- A `SessionData` record. -/
structure Session where
  uid : String
  userId : String
  deviceId : String
  status : String
  createdAt : Nat
  lastSeen : Nat
  location : Option GeoLocation
  deriving DecidableEq, Repr

/-- The service fields the examined operations read and write. -/
structure State where
  initialized : Bool
  currentUser : Option String
  _currentSession : Option Session
  _sessions : List Session
  _status : String
  _loading : Bool
  _error : Option JsError
  deriving DecidableEq, Repr

/-- Embedding of `sessionDatas[sessionIndex] = \x7b ...old, status, lastSeen, ...(location
&& \x7b location \x7d) \x7d`: replace the first session matching `p` using `f`,
also reporting whether one was found (`findIndex !== -1`). -/
def updateFirst (p : Session → Bool) (f : Session → Session) :
    List Session → List Session × Bool
  | [] => ([], false)
  | x :: rest =>
      if p x then (f x :: rest, true)
      else
        let r := updateFirst p f rest
        (x :: r.1, r.2)

/-- The fresh session pushed when no session matches the device
(`uid: sessionId, userId, deviceId, status, createdAt, lastSeen,
...(location && \x7b location \x7d)`). -/
def newSession (sessionId userId deviceId status : String) (now : Nat)
    (location : Option GeoLocation) : Session :=
  { uid := sessionId, userId := userId, deviceId := deviceId,
    status := status, createdAt := now, lastSeen := now, location := location }

/-- The in-place update of an existing session for this device. -/
def refreshSession (status : String) (now : Nat)
    (location : Option GeoLocation) (s : Session) : Session :=
  { s with status := status, lastSeen := now,
           location := match location with
                       | some l => some l
                       | none => s.location }

/-- The session list computed by `setPresence` before the TTL filter:
update the matching session when the snapshot has one, push a new one
otherwise, and start a fresh single-element list when the snapshot does
not exist. -/
def computeSessionDatas (dbVal : Option (List Session))
    (sessionId userId deviceId status : String) (now : Nat)
    (location : Option GeoLocation) : List Session :=
  match dbVal with
  | some sessions =>
      let r := updateFirst (fun s => s.uid == sessionId)
                 (refreshSession status now location) sessions
      if r.2 then r.1
      else sessions ++ [newSession sessionId userId deviceId status now location]
  | none => [newSession sessionId userId deviceId status now location]

/-- The TTL cleanup: with a configured `sessionTTL`, keep only sessions
with `lastSeen >= cutoffTime` where `cutoffTime = now - sessionTTL`. -/
def applyTTL (ttl : Option Nat) (now : Nat) (sessions : List Session) :
    List Session :=
  match ttl with
  | some t => sessions.filter (fun s => now - t ≤ s.lastSeen)
  | none => sessions

/-- What the vendor SDK did for one `setPresence` run: either the `get` of
the user's sessions node delivered a snapshot (`dbVal`, `none` when the
node does not exist) and the geolocation lookup delivered `location` with
the final `set` succeeding, or one of the awaited vendor calls threw. -/
inductive SPOutcome where
  | ok (dbVal : Option (List Session)) (location : Option GeoLocation)
  | vendorThrow (e : JsError)
  deriving DecidableEq, Repr

/-- Result of a `setPresence` run: the new service state, the session
array written to `sessions/<uid>` (when the write happened), and whether
the promise resolved or rejected with a rethrown error. -/
structure SPResult where
  state : State
  written : Option (List Session)
  res : Except JsError Unit
  deriving Repr

/-- The error thrown when no authenticated user is set. -/
def noAuthError : JsError :=
  { code := none, message := some "No authenticated user found" }

/-- Embedding of `setPresence(status)`: reads the current sessions, updates or creates
this device's session, filters stale sessions when a TTL is configured,
writes the array back, and mirrors it into the reactive fields; any error
(including the missing-user guard) is stored in `_error` and rethrown. -/
def setPresence (s : State) (deviceId status : String) (now : Nat)
    (ttl : Option Nat) (outcome : SPOutcome) : SPResult :=
  match s.currentUser with
  | none =>
      { state := { s with _error := some noAuthError },
        written := none,
        res := .error noAuthError }
  | some userId =>
      match outcome with
      | .vendorThrow e =>
          { state := { s with _error := some e },
            written := none,
            res := .error e }
      | .ok dbVal location =>
          let sessionId := userId ++ "_" ++ deviceId
          let sessionDatas :=
            applyTTL ttl now
              (computeSessionDatas dbVal sessionId userId deviceId status now
                location)
          { state := { s with
              _sessions := sessionDatas,
              _currentSession := sessionDatas.find? (fun x => x.uid == sessionId),
              _status := status },
            written := some sessionDatas,
            res := .ok () }

/-- Embedding of `initialize(user, config)`: the `try` body (consent request, presence
wiring) is abstracted into an outcome; on success the service is marked
initialized, on a thrown error `_error` is set, an error event is emitted
and the error is rethrown; the `finally` clears `_loading` on every path
that entered the `try` body. An already-initialized service returns early
(through the `finally`). -/
def initializeService (s : State) (user : String) (outcome : Except JsError Unit) :
    State × Except JsError Unit :=
  if s.initialized then
    ({ s with _loading := false }, .ok ())
  else
    match outcome with
    | .ok _ =>
        ({ s with currentUser := some user, initialized := true,
                  _loading := false }, .ok ())
    | .error e =>
        ({ s with currentUser := some user, _error := some e,
                  _loading := false }, .error e)

end PresenceService

/-! ## Theorems -/

/-- C1: whenever the vendor SDK invokes the error callback of a Firestore
document, collection group, or realtime database subscription with an
error `e`, the wrapper stores `e` verbatim in its error field, sets
loading to `false`, leaves data unchanged, and the error getter returns
exactly `e`. -/
theorem subscription_error_callback_stores_error_verbatim
    (e : JsError) (sd : FirekitDoc.State) (sg : FirekitCollectionGroup.State)
    (sr : FirekitRealtimeDB.State) :
    (FirekitDoc.errorGetter (FirekitDoc.onSnapshotError e sd) = some e
      ∧ FirekitDoc.loadingGetter (FirekitDoc.onSnapshotError e sd) = false
      ∧ FirekitDoc.dataGetter (FirekitDoc.onSnapshotError e sd) =
          FirekitDoc.dataGetter sd)
  ∧ (FirekitCollectionGroup.errorGetter (FirekitCollectionGroup.onSnapshotError e sg)
        = some e
      ∧ FirekitCollectionGroup.loadingGetter
          (FirekitCollectionGroup.onSnapshotError e sg) = false
      ∧ FirekitCollectionGroup.dataGetter
          (FirekitCollectionGroup.onSnapshotError e sg) =
          FirekitCollectionGroup.dataGetter sg)
  ∧ (FirekitRealtimeDB.errorGetter (FirekitRealtimeDB.onValueError e sr) = some e
      ∧ FirekitRealtimeDB.loadingGetter (FirekitRealtimeDB.onValueError e sr) = false
      ∧ FirekitRealtimeDB.dataGetter (FirekitRealtimeDB.onValueError e sr) =
          FirekitRealtimeDB.dataGetter sr) :=
  ⟨⟨rfl, rfl, rfl⟩, ⟨rfl, rfl, rfl⟩, ⟨rfl, rfl, rfl⟩⟩

/-- C5: a delivered `FirekitDoc` snapshot is mirrored into the reactive
fields — data becomes the snapshot data augmented with the snapshot id
when present and `null` otherwise, loading becomes `false`, error becomes
`null`, and the `exists` getter returns `true` exactly when data is
non-null. -/
theorem firekitDoc_snapshot_mirrors_payload
    (snap : FirekitDocumentMutations.DocSnap) (s : FirekitDoc.State) :
    (∀ d, snap.data = some d →
      FirekitDoc.dataGetter (FirekitDoc.onSnapshotNext snap s) =
        some (d ++ [("id", .str snap.id)]))
  ∧ (snap.data = none →
      FirekitDoc.dataGetter (FirekitDoc.onSnapshotNext snap s) = none)
  ∧ FirekitDoc.loadingGetter (FirekitDoc.onSnapshotNext snap s) = false
  ∧ FirekitDoc.errorGetter (FirekitDoc.onSnapshotNext snap s) = none
  ∧ (FirekitDoc.existsGetter (FirekitDoc.onSnapshotNext snap s) = true ↔
      FirekitDoc.dataGetter (FirekitDoc.onSnapshotNext snap s) ≠ none) := by
  refine ⟨?_, ?_, rfl, rfl, ?_⟩
  · intro d hd
    simp [FirekitDoc.dataGetter, FirekitDoc.onSnapshotNext, hd]
  · intro hd
    simp [FirekitDoc.dataGetter, FirekitDoc.onSnapshotNext, hd]
  · simp [FirekitDoc.existsGetter, FirekitDoc.dataGetter, FirekitDoc.onSnapshotNext,
      Option.isSome_iff_ne_none]

/-- Closed instance of `firekitDoc_snapshot_mirrors_payload` at a concrete
snapshot carrying data. -/
theorem firekitDoc_snapshot_mirrors_payload_witness :
    (⟨"a", some [("x", .num 1)]⟩ : FirekitDocumentMutations.DocSnap).data =
      some [("x", .num 1)]
  ∧ FirekitDoc.dataGetter
      (FirekitDoc.onSnapshotNext ⟨"a", some [("x", .num 1)]⟩ ⟨none, true, none⟩) =
      some [("x", .num 1), ("id", .str "a")] :=
  ⟨rfl,
   (firekitDoc_snapshot_mirrors_payload ⟨"a", some [("x", .num 1)]⟩
     ⟨none, true, none⟩).1 [("x", .num 1)] rfl⟩

/-- C7: `FirekitRealtimeDB.dispose()` invokes the stored vendor
unsubscribe function exactly when one exists and changes none of the
wrapper's exposed fields: the data, loading and error getters return the
same values as immediately before. -/
theorem firekitRealtimeDB_dispose_frame (s : FirekitRealtimeDB.State) :
    (FirekitRealtimeDB.dispose s).2 = s.unsubscribe
  ∧ FirekitRealtimeDB.dataGetter (FirekitRealtimeDB.dispose s).1 =
      FirekitRealtimeDB.dataGetter s
  ∧ FirekitRealtimeDB.loadingGetter (FirekitRealtimeDB.dispose s).1 =
      FirekitRealtimeDB.loadingGetter s
  ∧ FirekitRealtimeDB.errorGetter (FirekitRealtimeDB.dispose s).1 =
      FirekitRealtimeDB.errorGetter s :=
  ⟨rfl, rfl, rfl, rfl⟩

/-- C8: in `FirekitDoc`, the synthetic `id` is spread after the document
fields, so for every snapshot carrying data the exposed data's `id` equals
the snapshot's document id even when the stored document has its own `id`
field. -/
theorem firekitDoc_synthetic_id_overwrites
    (snap : FirekitDocumentMutations.DocSnap) (s : FirekitDoc.State) (d : JsObj)
    (h : snap.data = some d) :
    (FirekitDoc.dataGetter (FirekitDoc.onSnapshotNext snap s)).map
      (fun o => oget o "id") = some (some (.str snap.id)) := by
  simp only [FirekitDoc.dataGetter, FirekitDoc.onSnapshotNext, h]
  rw [Option.map_some', oget_append]
  rfl

/-- Closed instance of `firekitDoc_synthetic_id_overwrites` where the
stored document carries a conflicting `id` field. -/
theorem firekitDoc_synthetic_id_overwrites_witness :
    (⟨"a", some [("id", .str "b")]⟩ : FirekitDocumentMutations.DocSnap).data =
      some [("id", .str "b")]
  ∧ (FirekitDoc.dataGetter
      (FirekitDoc.onSnapshotNext ⟨"a", some [("id", .str "b")]⟩
        ⟨none, true, none⟩)).map (fun o => oget o "id") =
      some (some (.str "a")) :=
  ⟨rfl,
   firekitDoc_synthetic_id_overwrites ⟨"a", some [("id", .str "b")]⟩
     ⟨none, true, none⟩ [("id", .str "b")] rfl⟩

/-- Helper: key-wise characterization of the payload shared by `add` and
`set` with timestamps enabled. -/
theorem oget_newDocPayload (data : JsObj) (uid : JsVal) (docId k : String) :
    oget ((data ++ FirekitDocumentMutations.getTimestampData true uid) ++
        [("id", .str docId)]) k =
      if k = "id" then some (.str docId)
      else if k = "updatedAt" then some .serverTimestamp
      else if k = "updatedBy" then some uid
      else if k = "createdAt" then some .serverTimestamp
      else if k = "createdBy" then some uid
      else oget data k := by
  have hts : FirekitDocumentMutations.getTimestampData true uid =
      [("updatedAt", .serverTimestamp), ("updatedBy", uid),
       ("createdAt", .serverTimestamp), ("createdBy", uid)] := rfl
  rw [hts, oget_append, oget_append]
  by_cases h0 : k = "id"
  · subst h0; rfl
  by_cases h1 : k = "updatedAt"
  · subst h1; rfl
  by_cases h2 : k = "updatedBy"
  · subst h2; rfl
  by_cases h3 : k = "createdAt"
  · subst h3; rfl
  by_cases h4 : k = "createdBy"
  · subst h4; rfl
  have b0 : (("id" : String) == k) = false :=
    beq_eq_false_iff_ne.mpr (fun h => h0 h.symm)
  have b1 : (("updatedAt" : String) == k) = false :=
    beq_eq_false_iff_ne.mpr (fun h => h1 h.symm)
  have b2 : (("updatedBy" : String) == k) = false :=
    beq_eq_false_iff_ne.mpr (fun h => h2 h.symm)
  have b3 : (("createdAt" : String) == k) = false :=
    beq_eq_false_iff_ne.mpr (fun h => h3 h.symm)
  have b4 : (("createdBy" : String) == k) = false :=
    beq_eq_false_iff_ne.mpr (fun h => h4 h.symm)
  simp [hasKey, b0, b1, b2, b3, b4, h0, h1, h2, h3, h4]

/-- Helper: key-wise characterization of the `update` payload with
timestamps enabled. -/
theorem oget_updatePayload (data : JsObj) (uid : JsVal) (k : String) :
    oget (FirekitDocumentMutations.updatePayload data true uid) k =
      if k = "updatedAt" then some .serverTimestamp
      else if k = "updatedBy" then some uid
      else oget data k := by
  have hts : FirekitDocumentMutations.updatePayload data true uid =
      data ++ [("updatedAt", .serverTimestamp), ("updatedBy", uid)] := rfl
  rw [hts, oget_append]
  by_cases h1 : k = "updatedAt"
  · subst h1; rfl
  by_cases h2 : k = "updatedBy"
  · subst h2; rfl
  have b1 : (("updatedAt" : String) == k) = false :=
    beq_eq_false_iff_ne.mpr (fun h => h1 h.symm)
  have b2 : (("updatedBy" : String) == k) = false :=
    beq_eq_false_iff_ne.mpr (fun h => h2 h.symm)
  simp [hasKey, b1, b2, h1, h2]

/-- C2 counterexample: at concrete inputs, `set` with timestamps also
introduces `createdAt` (claimed to be add-only), `update` with timestamps
introduces no `id` field (claimed to be always present), and a caller
field named `updatedAt` is overwritten rather than passed through
unchanged. -/
theorem firekitDocMutations_payload_claim_counterexample :
    hasKey (FirekitDocumentMutations.setPayload [] true (.str "u") "d1")
      "createdAt" = true
  ∧ hasKey (FirekitDocumentMutations.updatePayload [] true (.str "u")) "id" = false
  ∧ oget (FirekitDocumentMutations.updatePayload [("updatedAt", .str "x")] true
      (.str "u")) "updatedAt" = some .serverTimestamp
  ∧ some JsVal.serverTimestamp ≠ some (JsVal.str "x") :=
  ⟨rfl, rfl, rfl, by decide⟩

/-- C2 amended: with timestamps enabled, the payloads of `add` and `set`
equal the caller's input augmented with the synthetic `id` (the target
reference's id) and all four bookkeeping fields `updatedAt`, `updatedBy`,
`createdAt`, `createdBy` (for `set` as well, not only `add`), these
synthetic fields overwriting caller fields of the same name; the payload
of `update` is augmented with `updatedAt`/`updatedBy` only and no `id`;
every other caller field passes through unchanged and no other field is
introduced. -/
theorem firekitDocMutations_timestamped_payloads
    (data : JsObj) (uid : JsVal) (docId k : String) :
    (oget (FirekitDocumentMutations.addPayload data true uid docId) k =
      if k = "id" then some (.str docId)
      else if k = "updatedAt" then some .serverTimestamp
      else if k = "updatedBy" then some uid
      else if k = "createdAt" then some .serverTimestamp
      else if k = "createdBy" then some uid
      else oget data k)
  ∧ (oget (FirekitDocumentMutations.setPayload data true uid docId) k =
      if k = "id" then some (.str docId)
      else if k = "updatedAt" then some .serverTimestamp
      else if k = "updatedBy" then some uid
      else if k = "createdAt" then some .serverTimestamp
      else if k = "createdBy" then some uid
      else oget data k)
  ∧ (oget (FirekitDocumentMutations.updatePayload data true uid) k =
      if k = "updatedAt" then some .serverTimestamp
      else if k = "updatedBy" then some uid
      else oget data k) :=
  ⟨oget_newDocPayload data uid docId k, oget_newDocPayload data uid docId k,
   oget_updatePayload data uid k⟩

/-- C4 counterexample: the collection group mapping spreads the document's
own fields after the synthetic `id` and `path`, so at a concrete snapshot
whose document data carries its own `id` field the exposed `id` is the
stored field, not the document id. -/
theorem firekitCollectionGroup_id_claim_counterexample :
    FirekitCollectionGroup.dataGetter
      (FirekitCollectionGroup.onSnapshotNext
        [⟨"a", "tasks/1/items/a", [("id", .str "b")]⟩] ⟨[], true, none⟩) =
      [[("id", .str "a"), ("path", .str "tasks/1/items/a"), ("id", .str "b")]]
  ∧ oget (FirekitCollectionGroup.mapDoc ⟨"a", "tasks/1/items/a", [("id", .str "b")]⟩)
      "id" = some (.str "b")
  ∧ some (JsVal.str "b") ≠ some (JsVal.str "a") :=
  ⟨rfl, rfl, by decide⟩

/-- C4 amended: a delivered collection group snapshot is forwarded into
the exposed fields — data is the snapshot's documents each mapped to the
synthetic `id` and `path` fields followed by the document's own fields,
which take precedence on a name collision (so `id`/`path` equal the
document id and reference path only when the document data has no field of
that name); loading becomes `false`, error becomes `null`, `size` is the
number of documents and `empty` holds exactly when `size` is zero. -/
theorem firekitCollectionGroup_snapshot_mirrors_payload
    (docs : List FirekitCollectionGroup.SnapDoc)
    (s : FirekitCollectionGroup.State) :
    FirekitCollectionGroup.dataGetter (FirekitCollectionGroup.onSnapshotNext docs s) =
      docs.map FirekitCollectionGroup.mapDoc
  ∧ FirekitCollectionGroup.loadingGetter
      (FirekitCollectionGroup.onSnapshotNext docs s) = false
  ∧ FirekitCollectionGroup.errorGetter
      (FirekitCollectionGroup.onSnapshotNext docs s) = none
  ∧ FirekitCollectionGroup.sizeGetter
      (FirekitCollectionGroup.onSnapshotNext docs s) = docs.length
  ∧ (FirekitCollectionGroup.emptyGetter
      (FirekitCollectionGroup.onSnapshotNext docs s) = true ↔
      FirekitCollectionGroup.sizeGetter
        (FirekitCollectionGroup.onSnapshotNext docs s) = 0)
  ∧ (∀ d : FirekitCollectionGroup.SnapDoc, hasKey d.data "id" = false →
      oget (FirekitCollectionGroup.mapDoc d) "id" = some (.str d.id))
  ∧ (∀ d : FirekitCollectionGroup.SnapDoc, hasKey d.data "path" = false →
      oget (FirekitCollectionGroup.mapDoc d) "path" = some (.str d.path))
  ∧ (∀ (d : FirekitCollectionGroup.SnapDoc) (k : String), hasKey d.data k = true →
      oget (FirekitCollectionGroup.mapDoc d) k = oget d.data k) := by
  refine ⟨rfl, rfl, rfl, by simp [FirekitCollectionGroup.sizeGetter,
      FirekitCollectionGroup.onSnapshotNext], ?_, ?_, ?_, ?_⟩
  · simp [FirekitCollectionGroup.emptyGetter, FirekitCollectionGroup.sizeGetter]
  · intro d hd
    unfold FirekitCollectionGroup.mapDoc
    rw [oget_append, hd]
    rfl
  · intro d hd
    unfold FirekitCollectionGroup.mapDoc
    rw [oget_append, hd]
    rfl
  · intro d k hk
    unfold FirekitCollectionGroup.mapDoc
    rw [oget_append, hk]
    rfl

/-- Closed instance of `firekitCollectionGroup_snapshot_mirrors_payload`
at a concrete snapshot without colliding field names. -/
theorem firekitCollectionGroup_snapshot_mirrors_payload_witness :
    hasKey ([("title", JsVal.str "t")] : JsObj) "id" = false
  ∧ oget (FirekitCollectionGroup.mapDoc ⟨"a", "tasks/1/items/a",
      [("title", .str "t")]⟩) "id" = some (.str "a") :=
  ⟨rfl,
   ((firekitCollectionGroup_snapshot_mirrors_payload
      [⟨"a", "tasks/1/items/a", [("title", .str "t")]⟩]
      ⟨[], true, none⟩).2.2.2.2.2.1
     ⟨"a", "tasks/1/items/a", [("title", .str "t")]⟩ rfl)⟩

/-- C3 counterexample: `getDoc` on a vendor call that succeeds but
delivers a non-existent snapshot resolves with `success: false` and a
`not_found` error, not with `\x7bsuccess: true\x7d` and the document id. -/
theorem firekitDocMutations_getDoc_notfound_counterexample :
    FirekitDocumentMutations.getDocM (.ok ⟨"123", none⟩) =
      .ok { success := false,
            error := some ⟨"not_found", "Document does not exist"⟩ }
  ∧ (match FirekitDocumentMutations.getDocM (.ok ⟨"123", none⟩) with
     | .ok r => r.success
     | .error _ => true) = false :=
  ⟨rfl, rfl⟩

/-- C3 amended: every mutation method of `firekitDocMutations` catches a
vendor error `e` and resolves with `\x7bsuccess: false\x7d` carrying `e`'s code
and message, never rethrowing; when the vendor call succeeds, `add`,
`set`, `update` and `delete` resolve with `\x7bsuccess: true\x7d` and the target
document's id, and `getDoc` does so when the fetched document exists,
resolving instead with a `not_found` failure when it does not. -/
theorem firekitDocMutations_catch_and_respond
    (data : JsObj) (timestamps : Bool) (uid : JsVal) (docId : String) (d : JsObj)
    (e : JsError) (c m : String)
    (hc : e.code = some c) (hc0 : c ≠ "") (hm : e.message = some m)
    (hm0 : m ≠ "") :
    FirekitDocumentMutations.add data timestamps uid (.thrown e) =
      .ok { success := false, error := some ⟨c, m⟩ }
  ∧ FirekitDocumentMutations.set data timestamps uid docId (.thrown e) =
      .ok { success := false, error := some ⟨c, m⟩ }
  ∧ FirekitDocumentMutations.update data timestamps uid docId (.thrown e) =
      .ok { success := false, error := some ⟨c, m⟩ }
  ∧ FirekitDocumentMutations.delete docId (.thrown e) =
      .ok { success := false, error := some ⟨c, m⟩ }
  ∧ FirekitDocumentMutations.getDocM (.thrown e) =
      .ok { success := false, error := some ⟨c, m⟩ }
  ∧ (FirekitDocumentMutations.add data timestamps uid (.ok docId)).map
      (fun r => (r.success, r.id)) = .ok (true, some docId)
  ∧ (FirekitDocumentMutations.set data timestamps uid docId (.ok ())).map
      (fun r => (r.success, r.id)) = .ok (true, some docId)
  ∧ (FirekitDocumentMutations.update data timestamps uid docId (.ok ())).map
      (fun r => (r.success, r.id)) = .ok (true, some docId)
  ∧ (FirekitDocumentMutations.delete docId (.ok ())).map
      (fun r => (r.success, r.id)) = .ok (true, some docId)
  ∧ (FirekitDocumentMutations.getDocM (.ok ⟨docId, some d⟩)).map
      (fun r => (r.success, r.id)) = .ok (true, some docId)
  ∧ FirekitDocumentMutations.getDocM (.ok ⟨docId, none⟩) =
      .ok { success := false,
            error := some ⟨"not_found", "Document does not exist"⟩ } := by
  have herr : FirekitDocumentMutations.handleError e =
      { success := false, error := some ⟨c, m⟩ } := by
    simp [FirekitDocumentMutations.handleError, orFalsy, hc, hm, hc0, hm0]
  refine ⟨?_, ?_, ?_, ?_, ?_, rfl, rfl, rfl, rfl, rfl, rfl⟩ <;>
    simp [FirekitDocumentMutations.add, FirekitDocumentMutations.set,
      FirekitDocumentMutations.update, FirekitDocumentMutations.delete,
      FirekitDocumentMutations.getDocM, tryCatch, herr]

/-- Closed instance of `firekitDocMutations_catch_and_respond` at a
concrete vendor error. -/
theorem firekitDocMutations_catch_and_respond_witness :
    (⟨some "permission-denied", some "Missing permissions"⟩ : JsError).code =
      some "permission-denied"
  ∧ "permission-denied" ≠ ""
  ∧ FirekitDocumentMutations.delete "123"
      (.thrown ⟨some "permission-denied", some "Missing permissions"⟩) =
      .ok { success := false,
            error := some ⟨"permission-denied", "Missing permissions"⟩ } :=
  ⟨rfl, by decide,
   (firekitDocMutations_catch_and_respond [] true (.str "u") "123" []
     ⟨some "permission-denied", some "Missing permissions"⟩
     "permission-denied" "Missing permissions" rfl (by decide) rfl
     (by decide)).2.2.2.1⟩

/-- C10: `firekitDocMutations.exists(path)` never propagates an error: it
returns the snapshot's existence flag when the lookup succeeds and `false`
when the vendor lookup throws, so a missing document and a failed lookup
are indistinguishable. -/
theorem firekitDocMutations_exists_swallows_errors :
    (∀ e : JsError, FirekitDocumentMutations.existsM (.thrown e) = false)
  ∧ (∀ b : Bool, FirekitDocumentMutations.existsM (.ok b) = b)
  ∧ FirekitDocumentMutations.existsM (.ok false) =
      FirekitDocumentMutations.existsM
        (.thrown ⟨some "unavailable", some "lookup failed"⟩) :=
  ⟨fun _ => rfl, fun _ => rfl, rfl⟩

/-- Helper: replacing the first matching session leaves the uid sequence
unchanged when the replacement preserves the uid. -/
theorem updateFirst_map_uid (p : PresenceService.Session → Bool)
    (f : PresenceService.Session → PresenceService.Session)
    (hf : ∀ y, (f y).uid = y.uid) (l : List PresenceService.Session) :
    ((PresenceService.updateFirst p f l).1.map PresenceService.Session.uid) =
      l.map PresenceService.Session.uid := by
  induction l with
  | nil => rfl
  | cons x rest ih =>
      by_cases hx : p x
      · simp [PresenceService.updateFirst, hx, hf]
      · simp [PresenceService.updateFirst, hx, ih]

/-- Helper: when `updateFirst` reports no match, no element matches. -/
theorem updateFirst_not_found (p : PresenceService.Session → Bool)
    (f : PresenceService.Session → PresenceService.Session)
    (l : List PresenceService.Session)
    (h : (PresenceService.updateFirst p f l).2 = false) :
    ∀ x ∈ l, p x = false := by
  induction l with
  | nil => intro x hx; cases hx
  | cons y rest ih =>
      by_cases hy : p y
      · simp [PresenceService.updateFirst, hy] at h
      · intro x hx
        rcases List.mem_cons.mp hx with hxy | hxr
        · subst hxy
          exact Bool.eq_false_iff.mpr hy
        · have h2 : (PresenceService.updateFirst p f rest).2 = false := by
            simpa [PresenceService.updateFirst, hy] using h
          exact ih h2 x hxr

/-- Helper: `refreshSession` keeps the session's uid. -/
theorem refreshSession_uid (status : String) (now : Nat)
    (location : Option PresenceService.GeoLocation)
    (y : PresenceService.Session) :
    (PresenceService.refreshSession status now location y).uid = y.uid := rfl

/-- Helper: the session list computed by `setPresence` has pairwise
distinct uids whenever the stored one does. -/
theorem computeSessionDatas_uid_nodup (dbVal : Option (List PresenceService.Session))
    (sessionId userId deviceId status : String) (now : Nat)
    (location : Option PresenceService.GeoLocation)
    (h : ((dbVal.getD []).map PresenceService.Session.uid).Nodup) :
    ((PresenceService.computeSessionDatas dbVal sessionId userId deviceId status
        now location).map PresenceService.Session.uid).Nodup := by
  cases dbVal with
  | none => simp [PresenceService.computeSessionDatas]
  | some l =>
      have hl : (l.map PresenceService.Session.uid).Nodup := by simpa using h
      unfold PresenceService.computeSessionDatas
      by_cases hr : (PresenceService.updateFirst
          (fun s => s.uid == sessionId)
          (PresenceService.refreshSession status now location) l).2
      · simp only [hr, if_true]
        rw [updateFirst_map_uid _ _ (refreshSession_uid status now location) l]
        exact hl
      · simp only [hr, if_false, Bool.false_eq_true]
        rw [List.map_append]
        rw [List.nodup_append]
        refine ⟨hl, by simp [PresenceService.newSession], ?_⟩
        intro a ha hb
        have hsid : a = sessionId := by
          simpa [PresenceService.newSession] using hb
        subst hsid
        obtain ⟨x, hx, hxu⟩ := List.mem_map.mp ha
        have hfalse := updateFirst_not_found _ _ l (Bool.eq_false_iff.mpr hr) x hx
        rw [beq_eq_false_iff_ne] at hfalse
        exact hfalse hxu

/-- Helper: the TTL filter preserves pairwise-distinct uids. -/
theorem applyTTL_uid_nodup (ttl : Option Nat) (now : Nat)
    (l : List PresenceService.Session)
    (h : (l.map PresenceService.Session.uid).Nodup) :
    ((PresenceService.applyTTL ttl now l).map PresenceService.Session.uid).Nodup := by
  cases ttl with
  | none => exact h
  | some t =>
      exact List.Nodup.sublist
        (List.Sublist.map PresenceService.Session.uid (List.filter_sublist l)) h

/-- Helper: in a list with pairwise distinct uids, `find?` on a uid
returns any member carrying that uid. -/
theorem find_uid_unique (l : List PresenceService.Session) (sid : String)
    (hnd : (l.map PresenceService.Session.uid).Nodup)
    (x : PresenceService.Session) (hx : x ∈ l) (hid : x.uid = sid) :
    l.find? (fun y => y.uid == sid) = some x := by
  induction l with
  | nil => cases hx
  | cons y tl ih =>
      rw [List.map_cons] at hnd
      have hnd2 := List.nodup_cons.mp hnd
      rcases List.mem_cons.mp hx with hxy | hxtl
      · subst hxy
        have : (x.uid == sid) = true := beq_iff_eq.mpr hid
        simp [List.find?, this]
      · have hyne : (y.uid == sid) = false := by
          rw [beq_eq_false_iff_ne]
          intro hy
          exact hnd2.1 (hy ▸ hid ▸ List.mem_map.mpr ⟨x, hxtl, rfl⟩)
        simp only [List.find?, hyne]
        exact ih hnd2.2 hxtl

/-- C9: after a successful `setPresence` with a configured `sessionTTL`,
every exposed session has `lastSeen` at least the cutoff (now minus TTL),
the exposed sessions list is exactly the array written to the database,
the uids stay pairwise distinct, and `currentSession` is the unique
session whose uid is the current user's uid joined with the device id, or
`null` when none survives the filter. -/
theorem presence_setPresence_session_invariants
    (s : PresenceService.State) (deviceId status uid : String) (now t : Nat)
    (dbVal : Option (List PresenceService.Session))
    (location : Option PresenceService.GeoLocation)
    (huser : s.currentUser = some uid)
    (hnodup : ((dbVal.getD []).map PresenceService.Session.uid).Nodup) :
    (∀ x ∈ (PresenceService.setPresence s deviceId status now (some t)
        (.ok dbVal location)).state._sessions, now - t ≤ x.lastSeen)
  ∧ (PresenceService.setPresence s deviceId status now (some t)
        (.ok dbVal location)).written =
      some ((PresenceService.setPresence s deviceId status now (some t)
        (.ok dbVal location)).state._sessions)
  ∧ (((PresenceService.setPresence s deviceId status now (some t)
        (.ok dbVal location)).state._sessions).map
        PresenceService.Session.uid).Nodup
  ∧ (∀ x ∈ (PresenceService.setPresence s deviceId status now (some t)
        (.ok dbVal location)).state._sessions,
        x.uid = uid ++ "_" ++ deviceId →
      (PresenceService.setPresence s deviceId status now (some t)
        (.ok dbVal location)).state._currentSession = some x)
  ∧ (∀ c, (PresenceService.setPresence s deviceId status now (some t)
        (.ok dbVal location)).state._currentSession = some c →
      c ∈ (PresenceService.setPresence s deviceId status now (some t)
        (.ok dbVal location)).state._sessions ∧ c.uid = uid ++ "_" ++ deviceId)
  ∧ ((PresenceService.setPresence s deviceId status now (some t)
        (.ok dbVal location)).state._currentSession = none →
      ∀ x ∈ (PresenceService.setPresence s deviceId status now (some t)
        (.ok dbVal location)).state._sessions,
        x.uid ≠ uid ++ "_" ++ deviceId) := by
  have hrun : PresenceService.setPresence s deviceId status now (some t)
      (.ok dbVal location) =
      { state := { s with
          _sessions := PresenceService.applyTTL (some t) now
            (PresenceService.computeSessionDatas dbVal
              (uid ++ "_" ++ deviceId) uid deviceId status now location),
          _currentSession := (PresenceService.applyTTL (some t) now
            (PresenceService.computeSessionDatas dbVal
              (uid ++ "_" ++ deviceId) uid deviceId status now location)).find?
            (fun x => x.uid == uid ++ "_" ++ deviceId),
          _status := status },
        written := some (PresenceService.applyTTL (some t) now
          (PresenceService.computeSessionDatas dbVal
            (uid ++ "_" ++ deviceId) uid deviceId status now location)),
        res := .ok () } := by
    unfold PresenceService.setPresence
    rw [huser]
  rw [hrun]
  have hnd3 : ((PresenceService.applyTTL (some t) now
      (PresenceService.computeSessionDatas dbVal (uid ++ "_" ++ deviceId) uid
        deviceId status now location)).map PresenceService.Session.uid).Nodup :=
    applyTTL_uid_nodup (some t) now _
      (computeSessionDatas_uid_nodup dbVal (uid ++ "_" ++ deviceId) uid deviceId
        status now location hnodup)
  refine ⟨?_, rfl, hnd3, ?_, ?_, ?_⟩
  · intro x hx
    have hx2 := List.mem_filter.mp hx
    exact of_decide_eq_true hx2.2
  · intro x hx hxu
    exact find_uid_unique _ _ hnd3 x hx hxu
  · intro c hc
    have hc2 : (PresenceService.applyTTL (some t) now
        (PresenceService.computeSessionDatas dbVal (uid ++ "_" ++ deviceId) uid
          deviceId status now location)).find?
        (fun x => x.uid == uid ++ "_" ++ deviceId) = some c := hc
    have hp := List.find?_some hc2
    exact ⟨List.mem_of_find?_eq_some hc2, beq_iff_eq.mp hp⟩
  · intro hnone x hx hxu
    have hnone2 : (PresenceService.applyTTL (some t) now
        (PresenceService.computeSessionDatas dbVal (uid ++ "_" ++ deviceId) uid
          deviceId status now location)).find?
        (fun x => x.uid == uid ++ "_" ++ deviceId) = none := hnone
    exact (List.find?_eq_none.mp hnone2 x hx) (beq_iff_eq.mpr hxu)

/-- Closed instance of `presence_setPresence_session_invariants` at a
concrete state in which one stored session is stale and filtered out. -/
theorem presence_setPresence_session_invariants_witness :
    (⟨true, some "u", none, [], "offline", false, none⟩ :
        PresenceService.State).currentUser = some "u"
  ∧ (((some [⟨"u_dev", "u", "dev", "online", 0, 99, none⟩,
        ⟨"u_old", "u", "old", "online", 0, 10, none⟩] :
        Option (List PresenceService.Session)).getD []).map
        PresenceService.Session.uid).Nodup
  ∧ (PresenceService.setPresence
      ⟨true, some "u", none, [], "offline", false, none⟩ "dev" "online" 100
      (some 50)
      (.ok (some [⟨"u_dev", "u", "dev", "online", 0, 99, none⟩,
        ⟨"u_old", "u", "old", "online", 0, 10, none⟩]) none)).written =
      some ((PresenceService.setPresence
        ⟨true, some "u", none, [], "offline", false, none⟩ "dev" "online" 100
        (some 50)
        (.ok (some [⟨"u_dev", "u", "dev", "online", 0, 99, none⟩,
          ⟨"u_old", "u", "old", "online", 0, 10, none⟩]) none)).state._sessions) :=
  ⟨rfl, by decide,
   (presence_setPresence_session_invariants
     ⟨true, some "u", none, [], "offline", false, none⟩ "dev" "online" "u" 100 50
     (some [⟨"u_dev", "u", "dev", "online", 0, 99, none⟩,
       ⟨"u_old", "u", "old", "online", 0, 10, none⟩]) none rfl (by decide)).2.1⟩

/-- C6 counterexample: at a concrete state and vendor error, both
`setPresence` and `initialize` store the error but reject their returned
promise with the same error — the error is propagated to the caller
(`throw error` after the catch block; the source's own doc comment says
`@throws`). -/
theorem presence_error_propagation_counterexample :
    (PresenceService.setPresence
      ⟨true, some "u", none, [], "offline", false, none⟩ "dev" "online" 0 none
      (.vendorThrow ⟨none, some "boom"⟩)).res =
      .error ⟨none, some "boom"⟩
  ∧ (PresenceService.initializeService
      ⟨false, none, none, [], "offline", true, none⟩ "u"
      (.error ⟨none, some "boom"⟩)).2 =
      .error ⟨none, some "boom"⟩ :=
  ⟨rfl, rfl⟩

/-- C6 amended: when `initialize` or `setPresence` fails, the error is
caught, stored verbatim in the service's `_error` field for the UI to
render, and then rethrown, propagating the same error to the caller
(`initialize` additionally clears `_loading` in its `finally`). -/
theorem presence_errors_stored_and_rethrown
    (s : PresenceService.State) (deviceId status user uid : String) (now : Nat)
    (ttl : Option Nat) (e : JsError)
    (huser : s.currentUser = some uid) (hinit : s.initialized = false) :
    (PresenceService.setPresence s deviceId status now ttl
      (.vendorThrow e)).state._error = some e
  ∧ (PresenceService.setPresence s deviceId status now ttl
      (.vendorThrow e)).res = .error e
  ∧ (PresenceService.initializeService s user (.error e)).1._error = some e
  ∧ (PresenceService.initializeService s user (.error e)).2 = .error e
  ∧ (PresenceService.initializeService s user (.error e)).1._loading = false := by
  refine ⟨?_, ?_, ?_, ?_, ?_⟩ <;>
    simp [PresenceService.setPresence, PresenceService.initializeService, huser,
      hinit]

/-- Closed instance of `presence_errors_stored_and_rethrown` at a concrete
state and error. -/
theorem presence_errors_stored_and_rethrown_witness :
    (⟨false, some "u", none, [], "offline", true, none⟩ :
        PresenceService.State).currentUser = some "u"
  ∧ (PresenceService.setPresence
      ⟨false, some "u", none, [], "offline", true, none⟩ "dev" "away" 5
      (some 10) (.vendorThrow ⟨some "net", some "offline"⟩)).state._error =
      some ⟨some "net", some "offline"⟩ :=
  ⟨rfl,
   (presence_errors_stored_and_rethrown
     ⟨false, some "u", none, [], "offline", true, none⟩ "dev" "away" "u" "u" 5
     (some 10) ⟨some "net", some "offline"⟩ rfl rfl).1⟩

end Firekit
